import Mathlib

/-!
Verification development for the BIApp pipeline & query execution engine
and its query-builder frontend.

The frontend (TypeScript under `src/frontend` and the unnamed parts) is
embedded directly; the backend engine (validator, step executors,
orchestrator) is not part of the source tree, so those components are
modelled from the specification text, as marked in their doc comments.
-/

namespace BIApp

/-! ## JavaScript-style dynamic values

Rows of a `QueryResponse` are JSON records; cells can be nulls, numbers,
strings or booleans.  JS numbers are modelled as rationals. -/

inductive JsVal where
  | null : JsVal
  | num : ℚ → JsVal
  | str : String → JsVal
  | bool : Bool → JsVal
deriving DecidableEq

/-- A row is an association list from column name to value; a missing key
reads as `null` (JS `undefined` behaves like `null` for the code paths
embedded here). -/
def Row := List (String × JsVal)
deriving DecidableEq

/-- `row[col]` with missing keys reading as `null`. -/
def Row.get (r : Row) (col : String) : JsVal :=
  match r.find? (fun p => p.1 == col) with
  | some p => p.2
  | none => JsVal.null

/-- JS truthiness for the values above (`null`, `0`, `""`, `false` are falsy). -/
def JsVal.truthy : JsVal → Bool
  | JsVal.null => false
  | JsVal.num q => q != 0
  | JsVal.str s => s != ""
  | JsVal.bool b => b

/-- JS `a || b`. -/
def jsOr (a b : JsVal) : JsVal := if a.truthy then a else b

/-- JS `String(v)` restricted to the value forms that occur in chart data.
(The exact number-to-string rendering is irrelevant to every claim below;
only that it is a function of the value.) -/
def JsVal.toStr : JsVal → String
  | JsVal.null => "null"
  | JsVal.num q => toString q
  | JsVal.str s => s
  | JsVal.bool b => if b then "true" else "false"

/-- JS `Number(v)` for the value forms that occur in chart data; non-numeric
strings coerce to `NaN`, which the sorting code only ever feeds to
subtraction, so it is modelled as `0` here. -/
def JsVal.toNum : JsVal → ℚ
  | JsVal.null => 0
  | JsVal.num q => q
  | JsVal.str _ => 0
  | JsVal.bool b => if b then 1 else 0

/-! ## `src/frontend/src/types/queryBuilder.ts` -/

/-- The operator union type of `FilterCondition` in
`src/frontend/src/types/queryBuilder.ts`, kept as the literal strings of the
TypeScript source. -/
def filterConditionOperators : List String :=
  ["=", "!=", ">", "<", ">=", "<=", "IN", "NOT IN", "LIKE", "IS NULL", "IS NOT NULL"]

structure FilterCondition where
  dimension_id : String
  operator : String
  value : JsVal
deriving DecidableEq

structure QueryRequest where
  entity_id : String
  dimension_ids : List String
  measure_ids : List String
  filters : List FilterCondition
  limit : Option Nat
deriving DecidableEq

structure QueryResponse where
  columns : List String
  data : List Row
  row_count : Nat
  generated_sql : String
  entity_name : String

/-! ## `FilterBuilder` (unnamed part: FilterBuilder.tsx) -/

structure SemanticDimension where
  id : String
  name : String
  data_type : String
deriving DecidableEq

structure FilterRow where
  id : String
  dimension_id : String
  operator : String
  value : JsVal
deriving DecidableEq

/-- `OPERATORS_BY_TYPE` from FilterBuilder.tsx; a data type absent from the
record reads as the empty list (the component guards the only access with
`dimension ? ... : []`). -/
def OPERATORS_BY_TYPE (data_type : String) : List String :=
  if data_type == "string" then
    ["=", "!=", "LIKE", "IN", "NOT IN", "IS NULL", "IS NOT NULL"]
  else if data_type == "integer" then
    ["=", "!=", ">", "<", ">=", "<=", "IN", "NOT IN", "IS NULL", "IS NOT NULL"]
  else if data_type == "decimal" then
    ["=", "!=", ">", "<", ">=", "<=", "IN", "NOT IN", "IS NULL", "IS NOT NULL"]
  else if data_type == "date" then
    ["=", "!=", ">", "<", ">=", "<=", "IS NULL", "IS NOT NULL"]
  else if data_type == "boolean" then
    ["=", "!=", "IS NULL", "IS NOT NULL"]
  else []

/-- `OPERATOR_LABELS` from FilterBuilder.tsx. -/
def OPERATOR_LABELS (op : String) : String :=
  if op == "=" then "equals"
  else if op == "!=" then "not equals"
  else if op == ">" then "greater than"
  else if op == "<" then "less than"
  else if op == ">=" then "greater than or equal"
  else if op == "<=" then "less than or equal"
  else if op == "IN" then "is one of"
  else if op == "NOT IN" then "is not one of"
  else if op == "LIKE" then "contains"
  else if op == "IS NULL" then "is empty"
  else if op == "IS NOT NULL" then "is not empty"
  else ""

/-- The string operators of the spec's vocabulary, as realised in the code's
vocabulary: the only substring-style operator the frontend offers is `LIKE`
(labelled "contains"). -/
def stringOnlyOperators : List String := ["LIKE"]

/-- `addFilter` in FilterBuilder.tsx: the freshly added row. -/
def addFilterRow (fresh_id : String) : FilterRow :=
  { id := fresh_id, dimension_id := "", operator := "=", value := JsVal.null }

/-- The operator selector's option list for one filter row:
`dimension ? OPERATORS_BY_TYPE[dimension.data_type] : []`. -/
def operatorsForRow (dimensions : List SemanticDimension) (f : FilterRow) :
    List String :=
  match dimensions.find? (fun d => d.id == f.dimension_id) with
  | some d => OPERATORS_BY_TYPE d.data_type
  | none => []

/-- The dimension selector's `onChange` handler: the operator written into the
filter row when dimension `dimensionId` is selected
(`dim ? OPERATORS_BY_TYPE[dim.data_type][0] : '='`); `none` models the JS
`undefined` that indexing an empty list would produce. -/
def operatorOnDimensionSelect (dimensions : List SemanticDimension)
    (dimensionId : String) : Option String :=
  match dimensions.find? (fun d => d.id == dimensionId) with
  | some d => (OPERATORS_BY_TYPE d.data_type).get? 0
  | none => some "="

/-! ## `QueryBuilder.tsx` handlers -/

/-- The component state consulted by `handleExecute` / `handleSaveQuery` /
`handleExport` in `QueryBuilder.tsx`. -/
structure QueryBuilderState where
  selectedEntityId : Option String
  selectedDimensionIds : List String
  selectedMeasureIds : List String
  filters : List FilterRow
deriving DecidableEq

/-- JS truthiness of `selectedEntityId : string | null`. -/
def entityTruthy : Option String → Bool
  | none => false
  | some s => s != ""

/-- The guard `!selectedEntityId || selectedMeasureIds.length === 0` shared by
`handleExecute`, `handleSaveQuery` and `handleExport` (and by the
`disabled` prop of the Execute / Save buttons). -/
def executeGuardFails (st : QueryBuilderState) : Bool :=
  !(entityTruthy st.selectedEntityId) || st.selectedMeasureIds.length == 0

/-- The `QueryRequest` built by `handleExecute` / `handleExport`. -/
def buildRequest (st : QueryBuilderState) (e : String) : QueryRequest :=
  { entity_id := e
    dimension_ids := st.selectedDimensionIds
    measure_ids := st.selectedMeasureIds
    filters := st.filters.map (fun f =>
      { dimension_id := f.dimension_id, operator := f.operator, value := f.value })
    limit := some 1000 }

/-- `handleExecute`: `none` models the early return with the
"Please select an entity and at least one measure" warning (no request is
issued); `some req` models `executeQuery(request)`. -/
def handleExecute (st : QueryBuilderState) : Option QueryRequest :=
  if executeGuardFails st then none
  else
    match st.selectedEntityId with
    | some e => some (buildRequest st e)
    | none => none

/-- `handleExport`: same guard and request construction as `handleExecute`. -/
def handleExport (st : QueryBuilderState) : Option QueryRequest :=
  if executeGuardFails st then none
  else
    match st.selectedEntityId with
    | some e => some (buildRequest st e)
    | none => none

/-- `handleSaveQuery`: `true` iff the save modal opens (the guard passes). -/
def handleSaveQuery (st : QueryBuilderState) : Bool :=
  !(executeGuardFails st)

/-! ## `src/frontend/src/features/query-builder/utils/chartUtils.ts` -/

inductive ChartType where
  | bar | line | area | pie
deriving DecidableEq

/-- The fields of `ChartConfiguration` (types/visualization) read by
`chartUtils.ts`; optional string fields are `Option String`, and a stored
conditional-colour rule is a `(condition, color)` pair. -/
structure ChartConfiguration where
  chart_type : ChartType
  x_axis_column : Option String
  y_axis_columns : List String
  category_column : Option String
  value_column : Option String
  sort_order : Option String
  sort_by : Option String
  color_mode : Option String
  conditional_colors : List (String × String)
deriving DecidableEq

/-- Row lookup through a nullable column name: `row[col]` where `col` may be
`null` (reads as `null`, matching JS `row[null] === undefined`). -/
def Row.getOpt (r : Row) (col : Option String) : JsVal :=
  match col with
  | some c => r.get c
  | none => JsVal.null

/-- The comparator body of `sortData`: `compareValue` before the
ascending/descending sign flip. -/
def compareValue (xColumn : Option String) (yColumns : List String)
    (sortBy : String) (a b : Row) : ℚ :=
  if sortBy == "category" then
    let aVal := (jsOr (a.getOpt xColumn) (JsVal.str "")).toStr
    let bVal := (jsOr (b.getOpt xColumn) (JsVal.str "")).toStr
    if aVal < bVal then -1 else if bVal < aVal then 1 else 0
  else
    let aVal := (jsOr (a.getOpt yColumns.head?) (JsVal.num 0)).toNum
    let bVal := (jsOr (b.getOpt yColumns.head?) (JsVal.num 0)).toNum
    aVal - bVal

/-- The full `sortData` comparator, including the
`sortOrder === 'ascending' ? compareValue : -compareValue` sign flip. -/
def sortComparator (xColumn : Option String) (yColumns : List String)
    (sortOrder sortBy : String) (a b : Row) : ℚ :=
  if sortOrder == "ascending" then compareValue xColumn yColumns sortBy a b
  else -(compareValue xColumn yColumns sortBy a b)

/-- `sortData` from chartUtils.ts: returns `data` untouched for
`sortOrder === 'none'`, otherwise sorts a copy (`[...data].sort(...)`) with
the comparator; `Array.prototype.sort` is stable, modelled by `mergeSort`
keeping `a` before `b` exactly when the comparator is `≤ 0`. -/
def sortData (data : List Row) (xColumn : Option String)
    (yColumns : List String) (sortOrder sortBy : String) : List Row :=
  if sortOrder == "none" then data
  else data.mergeSort (fun a b => sortComparator xColumn yColumns sortOrder sortBy a b ≤ 0)

/-- One datum of a pie series: `{name, value}`. -/
structure PieDatum where
  name : String
  value : ℚ
deriving DecidableEq

/-- The data-bearing content of the ECharts option built by
`transformDataForECharts` (static styling fields of the TS object carry no
program logic and are not represented). -/
inductive EChartsOption where
  | pie (seriesName : String) (data : List PieDatum)
  | axis (legend : List String) (xAxisData : List String)
      (series : List (String × List ℚ))
deriving DecidableEq

/-- JS `s || default` for a nullable string. -/
def strOr (o : Option String) (d : String) : String :=
  match o with
  | some s => if s == "" then d else s
  | none => d

/-- `transformDataForECharts` from chartUtils.ts, restricted to the
data-bearing fields of the returned option. -/
def transformDataForECharts (data : QueryResponse) (config : ChartConfiguration)
    (chartType : ChartType) : EChartsOption :=
  if chartType = ChartType.pie then
    EChartsOption.pie (strOr config.category_column "Category")
      (data.data.map (fun row =>
        { name := (jsOr (row.getOpt config.category_column) (JsVal.str "")).toStr
          value := (jsOr (row.getOpt config.value_column) (JsVal.num 0)).toNum }))
  else
    let sortedData := sortData data.data config.x_axis_column config.y_axis_columns
      (strOr config.sort_order "none") (strOr config.sort_by "category")
    let xAxisData := sortedData.map (fun row =>
      (jsOr (row.getOpt config.x_axis_column) (JsVal.str "")).toStr)
    EChartsOption.axis config.y_axis_columns xAxisData
      (config.y_axis_columns.map (fun col =>
        (col, sortedData.map (fun row => (jsOr (row.get col) (JsVal.num 0)).toNum))))

/-- JS falsiness of a nullable string (`null` and `''` are falsy). -/
def strFalsy : Option String → Bool
  | none => true
  | some s => s == ""

/-- `validateChartConfig` from chartUtils.ts; `none` models the TS `null`
("valid"), `some msg` the returned error message. -/
def validateChartConfig (config : ChartConfiguration) (columns : List String) :
    Option String :=
  if config.chart_type = ChartType.pie then
    if strFalsy config.category_column || strFalsy config.value_column then
      some "Pie charts require both a category column and a value column"
    else
      let cat := (config.category_column).getD ""
      let val := (config.value_column).getD ""
      if !(columns.contains cat) then
        some (s!"Category column \"{cat}\" not found in results")
      else if !(columns.contains val) then
        some (s!"Value column \"{val}\" not found in results")
      else none
  else
    if strFalsy config.x_axis_column then
      some "X-axis column is required"
    else
      let x := (config.x_axis_column).getD ""
      if !(columns.contains x) then
        some (s!"X-axis column \"{x}\" not found in results")
      else if config.y_axis_columns.length == 0 then
        some "At least one Y-axis column is required"
      else
        match config.y_axis_columns.find? (fun col => !(columns.contains col)) with
        | some col => some (s!"Y-axis column \"{col}\" not found in results")
        | none => none

/-- The `chartOption` memo of `ChartVisualization`: `null` when validation
failed, otherwise the transformed ECharts option (which is what the
component renders). -/
def chartOption (data : QueryResponse) (config : ChartConfiguration)
    (chartType : ChartType) : Option EChartsOption :=
  match validateChartConfig config data.columns with
  | some _ => none
  | none => some (transformDataForECharts data config chartType)

/-- The keyword alternatives of the measure-detection regex
`/(sum|avg|count|min|max|total|amount|revenue|quantity|median|stddev)/i`
in `inferChartConfig`. -/
def measureKeywords : List String :=
  ["sum", "avg", "count", "min", "max", "total", "amount", "revenue",
   "quantity", "median", "stddev"]

/-- Whether `pat` is a prefix of `s` (over character lists). -/
def listHasPrefix : List Char → List Char → Bool
  | _, [] => true
  | [], _ :: _ => false
  | c :: cs, p :: ps => c == p && listHasPrefix cs ps

/-- Whether `pat` occurs as a contiguous sublist of `s`. -/
def listContainsSub (pat : List Char) : List Char → Bool
  | [] => listHasPrefix [] pat
  | c :: cs => listHasPrefix (c :: cs) pat || listContainsSub pat cs

/-- Case-sensitive substring occurrence test on strings. -/
def strContainsSub (s pat : String) : Bool :=
  listContainsSub pat.toList s.toList

/-- ASCII lower-casing of one character (all the keyword characters are
ASCII, so this matches `toLowerCase` on every character the pattern can
distinguish). -/
def charToLower (c : Char) : Char :=
  if c.toNat ≥ 65 && c.toNat ≤ 90 then Char.ofNat (c.toNat + 32) else c

/-- The regex test applied to `col.toLowerCase()` in `inferChartConfig`. -/
def matchesMeasurePattern (col : String) : Bool :=
  measureKeywords.any (fun k =>
    listContainsSub k.toList (col.toList.map charToLower))

/-- `typeof v === 'number'`. -/
def JsVal.isNumber : JsVal → Bool
  | JsVal.num _ => true
  | _ => false

/-- JS `expr || null` for a possibly-missing string (`undefined`, `null` and
`''` all become `null`). -/
def jsStrOrNull : Option String → Option String
  | some s => if s == "" then none else some s
  | none => none

/-- `inferChartConfig` from chartUtils.ts.  `response.columns[0]` on an empty
column list is JS `undefined`; it is modelled as `""`, which is
observationally equal for the one place the value is used
(`finalDimensions[0] || null` maps both to `null`). -/
def inferChartConfig (response : QueryResponse) : ChartConfiguration :=
  let dimensions := response.columns.filter (fun col => !(matchesMeasurePattern col))
  let measures := response.columns.filter (fun col =>
    matchesMeasurePattern col ||
    (decide (response.data.length > 0) &&
      JsVal.isNumber (Row.get (response.data.headD []) col)))
  let finalDimensions :=
    if dimensions.length > 0 then dimensions else [response.columns.headD ""]
  let finalMeasures :=
    if measures.length > 0 then measures else response.columns.drop 1
  { chart_type := ChartType.bar
    x_axis_column := jsStrOrNull finalDimensions.head?
    y_axis_columns := if finalMeasures.length > 0 then finalMeasures else []
    category_column := none
    value_column := none
    sort_order := some "none"
    sort_by := some "category"
    color_mode := some "conditional"
    conditional_colors :=
      [("positive", "#5470c6"), ("negative", "#ee6666"), ("zero", "#91cc75")] }

/-! ## Pipeline engine (modelled from the spec)

The backend engine (Step Graph Validator, Step Executors, Execution
Orchestrator) is not part of the source tree; only its docs and callers are.
The definitions below are therefore modelled from the specification text
(§3, §4.1, §4.2, §4.5, §7). -/

/-- Modelled from the spec: a `FilterCondition` of a Filter step (§3, §4.2);
the engine code is missing from the tree.  `value` is the scalar comparand,
`valueList` the provided list for `in` / `not in`. -/
structure EngineFilterCond where
  column : String
  op : String
  value : JsVal
  valueList : List JsVal
deriving DecidableEq

/-- Modelled from the spec: evaluation of one filter condition on one row
(§4.2 Filter; the engine code is missing from the tree).  Comparisons follow
normal comparison semantics (`>` excludes the boundary); `in`/`not in`
compare against the provided list; `contains/startswith/endswith` are
case-sensitive substring tests restricted to string columns; comparisons
against a `null` cell are false. -/
def evalCondition (row : Row) (c : EngineFilterCond) : Bool :=
  let cell := row.get c.column
  if c.op == "==" then cell == c.value
  else if c.op == "!=" then cell != c.value
  else if c.op == ">" then
    match cell, c.value with
    | JsVal.num a, JsVal.num b => a > b
    | JsVal.str a, JsVal.str b => b < a
    | _, _ => false
  else if c.op == ">=" then
    match cell, c.value with
    | JsVal.num a, JsVal.num b => a ≥ b
    | JsVal.str a, JsVal.str b => b < a || b == a
    | _, _ => false
  else if c.op == "<" then
    match cell, c.value with
    | JsVal.num a, JsVal.num b => a < b
    | JsVal.str a, JsVal.str b => a < b
    | _, _ => false
  else if c.op == "<=" then
    match cell, c.value with
    | JsVal.num a, JsVal.num b => a ≤ b
    | JsVal.str a, JsVal.str b => a < b || a == b
    | _, _ => false
  else if c.op == "in" then c.valueList.contains cell
  else if c.op == "not in" then !(c.valueList.contains cell)
  else if c.op == "contains" then
    match cell, c.value with
    | JsVal.str s, JsVal.str p => strContainsSub s p
    | _, _ => false
  else if c.op == "startswith" then
    match cell, c.value with
    | JsVal.str s, JsVal.str p => s.startsWith p
    | _, _ => false
  else if c.op == "endswith" then
    match cell, c.value with
    | JsVal.str s, JsVal.str p => s.endsWith p
    | _, _ => false
  else if c.op == "is null" then cell == JsVal.null
  else if c.op == "is not null" then cell != JsVal.null
  else false

/-- Modelled from the spec: the Filter step executor (§4.2; the engine code is
missing from the tree): all conditions are combined with one flat
`logical_operator`, `AND` or `OR`. -/
def filterStep (conditions : List EngineFilterCond) (logicalOp : String)
    (rows : List Row) : List Row :=
  rows.filter (fun r =>
    if logicalOp == "OR" then conditions.any (evalCondition r)
    else conditions.all (evalCondition r))

/-- Modelled from the spec: the closed enumeration of aggregation functions
(§4.2 Aggregate; the engine code is missing from the tree). -/
inductive AggFunc where
  | sum | mean | median | min | max | count | std | var
deriving DecidableEq

/-- The non-null values of an aggregated column. -/
def nonNullValues (vs : List (Option ℚ)) : List ℚ := vs.filterMap id

/-- Mean of a list of rationals (0 on the empty list). -/
def meanQ (xs : List ℚ) : ℚ :=
  if xs.length = 0 then 0 else xs.sum / xs.length

/-- Median of a list of rationals (0 on the empty list). -/
def medianQ (xs : List ℚ) : ℚ :=
  let s := xs.mergeSort (fun a b => decide (a ≤ b))
  if s.length = 0 then 0
  else if s.length % 2 = 1 then s.getD (s.length / 2) 0
  else (s.getD (s.length / 2 - 1) 0 + s.getD (s.length / 2) 0) / 2

/-- Minimum of a list of rationals (0 on the empty list). -/
def minQ (xs : List ℚ) : ℚ :=
  match xs with
  | [] => 0
  | x :: rest => rest.foldl Min.min x

/-- Maximum of a list of rationals (0 on the empty list). -/
def maxQ (xs : List ℚ) : ℚ :=
  match xs with
  | [] => 0
  | x :: rest => rest.foldl Max.max x

/-- Sample variance of a list of rationals (0 on lists of length ≤ 1). -/
def varQ (xs : List ℚ) : ℚ :=
  if xs.length ≤ 1 then 0
  else ((xs.map (fun x => (x - meanQ xs) ^ 2)).sum) / (xs.length - 1 : ℚ)

/-- Modelled from the spec: one aggregation function applied to the non-null
values of the aggregated column (§4.2 Aggregate; the engine code is missing
from the tree).  `count` never reaches this function (see `applyAgg`). -/
noncomputable def applyAggNonNull : AggFunc → List ℚ → ℝ
  | AggFunc.sum, xs => ((xs.sum : ℚ) : ℝ)
  | AggFunc.mean, xs => ((meanQ xs : ℚ) : ℝ)
  | AggFunc.median, xs => ((medianQ xs : ℚ) : ℝ)
  | AggFunc.min, xs => ((minQ xs : ℚ) : ℝ)
  | AggFunc.max, xs => ((maxQ xs : ℚ) : ℝ)
  | AggFunc.std, xs => Real.sqrt ((varQ xs : ℚ) : ℝ)
  | AggFunc.var, xs => ((varQ xs : ℚ) : ℝ)
  | AggFunc.count, xs => (xs.length : ℝ)

/-- Modelled from the spec: §4.2 Aggregate null policy — `count` includes rows
with null values in the aggregated column; every other function is computed
over the non-null values only (the engine code is missing from the tree). -/
noncomputable def applyAgg (f : AggFunc) (vs : List (Option ℚ)) : ℝ :=
  match f with
  | AggFunc.count => (vs.length : ℝ)
  | f => applyAggNonNull f (nonNullValues vs)

/-- The aggregated column of a list of rows, as nullable rationals
(non-numeric cells aggregate as nulls). -/
def columnValues (rows : List Row) (c : String) : List (Option ℚ) :=
  rows.map (fun r =>
    match r.get c with
    | JsVal.num q => some q
    | _ => none)

/-! ### Step graph validator and orchestrator (modelled from the spec) -/

inductive StepType where
  | source | filter | join | aggregate | select | sort | union
deriving DecidableEq

/-- Modelled from the spec: a Step of a PipelineDefinition (§3); only the
fields the validator and orchestrator inspect are carried (the engine code
is missing from the tree). -/
structure PStep where
  step_order : Nat
  step_type : StepType
  name : String
  output_alias : String
  input_aliases : List String
deriving DecidableEq

structure Pipeline where
  steps : List PStep
deriving DecidableEq

/-- The distinct validation error for the step-order rule (the docs surface it
as "Step order mismatch"). -/
def orderMismatchError : String :=
  "Step order mismatch: step orders must form 0..N-1 with no duplicates or gaps"

/-- Modelled from the spec: §4.1 rule "Step order values must form {0,...,N-1}
with no duplicates/gaps" (the engine code is missing from the tree).  The
check verifies that every index below N occurs among the N declared orders. -/
def checkStepOrders (p : Pipeline) : List String :=
  if (List.range p.steps.length).all
      (fun i => (p.steps.map (fun s => s.step_order)).contains i)
  then [] else [orderMismatchError]

/-- Modelled from the spec: §4.1 rule "The step at order=0 must be of type
source" (the engine code is missing from the tree). -/
def checkFirstSource (p : Pipeline) : List String :=
  match p.steps.find? (fun s => s.step_order == 0) with
  | some s =>
    if s.step_type = StepType.source then []
    else ["first step must be of type source"]
  | none => []

/-- Modelled from the spec: §4.1 rule "each referenced alias must be the
output_alias of a step with a strictly smaller order" (the engine code is
missing from the tree); a violation is reported as an "alias not found"
error. -/
def checkAliases (p : Pipeline) : List String :=
  p.steps.flatMap (fun s =>
    s.input_aliases.filterMap (fun a =>
      if p.steps.any (fun t =>
          t.output_alias == a && decide (t.step_order < s.step_order))
      then none
      else some (s!"alias not found: {a}")))

/-- Modelled from the spec: `validate(pipeline)` (§4.1); the errors list of
the validation result (the engine code is missing from the tree). -/
def validate (p : Pipeline) : List String :=
  checkStepOrders p ++ checkFirstSource p ++ checkAliases p

inductive RunStatus where
  | success | failed
deriving DecidableEq

/-- Modelled from the spec: the terminal part of a PipelineRun record (§3);
`queued`/`running` are transient and `partial` is only ever set by the
external delivery collaborator (§4.5), so a run completed by the
orchestrator itself carries `success` or `failed`. -/
structure PipelineRun where
  status : RunStatus
  rows_processed : Nat
  error_message : Option String
deriving DecidableEq

/-- Abstract outcome of executing one step (the step executors' internals are
irrelevant to run-record claims): the produced dataset's row count, or an
error message. -/
inductive StepResult where
  | ok (rows : Nat)
  | err (msg : String)
deriving DecidableEq

/-- Modelled from the spec: the orchestrator's outcome — validation failure
creates no run record; otherwise a completed run record is produced (§4.5,
§7 propagation policy; the engine code is missing from the tree). -/
inductive ExecOutcome where
  | validationFailed (errors : List String)
  | completed (run : PipelineRun)
deriving DecidableEq

/-- Modelled from the spec: the human-readable message recorded when a step
fails, naming the failing step's name and order (§4.5). -/
def stepFailureMessage (s : PStep) (m : String) : String :=
  let n := s.name
  let k := s.step_order
  s!"Step {n} (order {k}) failed: {m}"

/-- Modelled from the spec: the orchestrator's step loop (§4.5; the engine
code is missing from the tree): steps run in ascending order; the first
failure aborts the remaining steps and completes the run as `failed` with a
message naming the failing step's name and order. -/
def runSteps (exec : PStep → StepResult) : List PStep → Nat → PipelineRun
  | [], rows =>
    { status := RunStatus.success, rows_processed := rows, error_message := none }
  | s :: rest, rows =>
    match exec s with
    | StepResult.ok n => runSteps exec rest n
    | StepResult.err m =>
      { status := RunStatus.failed, rows_processed := rows,
        error_message := some (stepFailureMessage s m) }

/-- Modelled from the spec: `ExecutePipeline` (§4.5, §7; the engine code is
missing from the tree): validation runs first and a validation failure
returns synchronously without creating a run record; otherwise the steps are
executed by ascending order and the run record is completed with a terminal
status. -/
def executePipeline (exec : PStep → StepResult) (p : Pipeline) : ExecOutcome :=
  let errors := validate p
  if errors = [] then
    ExecOutcome.completed
      (runSteps exec
        (p.steps.mergeSort (fun a b => decide (a.step_order ≤ b.step_order))) 0)
  else ExecOutcome.validationFailed errors

/-! ## Claim-specific auxiliary definitions -/

/-- The filter-operator vocabulary exactly as written in the spec's data
model: `operator ∈ {==,!=,>,>=,<,<=,in,not in,contains,startswith,endswith,
is null,is not null}`. -/
def specOperatorVocabulary : List String :=
  ["==", "!=", ">", ">=", "<", "<=", "in", "not in", "contains",
   "startswith", "endswith", "is null", "is not null"]

/-- A query-builder state with a selected entity but an empty measure list. -/
def noMeasureState : QueryBuilderState :=
  { selectedEntityId := some "orders", selectedDimensionIds := ["region"],
    selectedMeasureIds := [], filters := [] }

/-- The spec's fixture rows for the filter boundary example:
`unit_price ∈ {800, 1000, 1500}`. -/
def row800 : Row := [("unit_price", JsVal.num 800)]

def row1000 : Row := [("unit_price", JsVal.num 1000)]

def row1500 : Row := [("unit_price", JsVal.num 1500)]

/-- The spec's `Filter{column:'unit_price', operator:'>', value:1000}`. -/
def gt1000Cond : EngineFilterCond :=
  { column := "unit_price", op := ">", value := JsVal.num 1000, valueList := [] }

/-- A numeric comparison condition `col <op> b`. -/
def numCond (op col : String) (b : ℚ) : EngineFilterCond :=
  { column := col, op := op, value := JsVal.num b, valueList := [] }

/-- The spec's aggregate fixture with one null `quantity` row. -/
def nullQuantityRows : List Row :=
  [[("region", JsVal.str "North"), ("quantity", JsVal.num 10)],
   [("region", JsVal.str "North"), ("quantity", JsVal.null)],
   [("region", JsVal.str "South"), ("quantity", JsVal.num 20)]]

/-- A pipeline whose step orders are `{0, 2}`: a gap at order 1. -/
def gapOrderPipeline : Pipeline :=
  { steps :=
      [{ step_order := 0, step_type := StepType.source, name := "load",
         output_alias := "raw", input_aliases := [] },
       { step_order := 2, step_type := StepType.filter, name := "filter step",
         output_alias := "filtered", input_aliases := ["raw"] }] }

/-- A pipeline whose second step references an alias no earlier step
produces. -/
def aliasNotFoundPipeline : Pipeline :=
  { steps :=
      [{ step_order := 0, step_type := StepType.source, name := "load",
         output_alias := "raw", input_aliases := [] },
       { step_order := 1, step_type := StepType.filter, name := "filter step",
         output_alias := "filtered", input_aliases := ["missing"] }] }

/-- A step-execution oracle for witnesses: every step succeeds with 0 rows. -/
def trivialExec : PStep → StepResult := fun _ => StepResult.ok 0

/-- A chart configuration well-formed in the words of the claim (amended for
JS truthiness): for pie charts the category and value columns are non-empty
strings naming result columns; for every other chart type the x-axis column
is a non-empty string naming a result column and the y-axis columns are a
non-empty subset of the result columns.  This definition follows the claim's
words and is compared against `validateChartConfig`, the embedding of the
source. -/
def wellFormedChartConfig (config : ChartConfiguration) (columns : List String) :
    Prop :=
  if config.chart_type = ChartType.pie then
    (∃ c, config.category_column = some c ∧ c ≠ "" ∧ c ∈ columns) ∧
    (∃ v, config.value_column = some v ∧ v ≠ "" ∧ v ∈ columns)
  else
    (∃ x, config.x_axis_column = some x ∧ x ≠ "" ∧ x ∈ columns) ∧
    config.y_axis_columns ≠ [] ∧
    ∀ col ∈ config.y_axis_columns, col ∈ columns

/-- A pie configuration whose category column is the (non-null) empty string;
the empty string is also a member of the column list it is validated
against. -/
def cexPieConfig : ChartConfiguration :=
  { chart_type := ChartType.pie, x_axis_column := none, y_axis_columns := [],
    category_column := some "", value_column := some "x",
    sort_order := none, sort_by := none, color_mode := none,
    conditional_colors := [] }

/-- The first column not matching the measure-keyword pattern, or the first
column when every column matches (the claim's description of the inferred
x-axis dimension). -/
def firstInferredDimension (response : QueryResponse) : String :=
  match response.columns.filter (fun col => !(matchesMeasurePattern col)) with
  | [] => response.columns.headD ""
  | c :: _ => c

/-- A query response whose only column is named by the empty string. -/
def emptyNameColumnResponse : QueryResponse :=
  { columns := [""], data := [], row_count := 0, generated_sql := "",
    entity_name := "" }

/-! ## Claim C1 -/

/-- C1: for every dimension whose data_type is numeric (integer or decimal),
the filter builder's operator list contains no string operator — it is
exactly the comparison, list-membership and null-check operators — and
selecting a numeric dimension always resets the filter row's operator to a
member of that list. -/
theorem numeric_dimension_operator_safety :
    ∀ dt : String, dt = "integer" ∨ dt = "decimal" →
      OPERATORS_BY_TYPE dt =
        ["=", "!=", ">", "<", ">=", "<=", "IN", "NOT IN", "IS NULL", "IS NOT NULL"] ∧
      (∀ op ∈ OPERATORS_BY_TYPE dt, op ∉ stringOnlyOperators) ∧
      (∀ (dimensions : List SemanticDimension) (dimId : String) (d : SemanticDimension),
        dimensions.find? (fun x => x.id == dimId) = some d →
        d.data_type = dt →
        ∃ op, operatorOnDimensionSelect dimensions dimId = some op ∧
          op ∈ OPERATORS_BY_TYPE dt) := by
  intro dt hdt
  have hops : OPERATORS_BY_TYPE dt =
      ["=", "!=", ">", "<", ">=", "<=", "IN", "NOT IN", "IS NULL", "IS NOT NULL"] := by
    rcases hdt with h | h <;> subst h <;> rfl
  refine ⟨hops, ?_, ?_⟩
  · rw [hops]; decide
  · intro dimensions dimId d hfind hdtype
    refine ⟨"=", ?_, ?_⟩
    · unfold operatorOnDimensionSelect
      rw [hfind]
      show (OPERATORS_BY_TYPE d.data_type).get? 0 = some "="
      rw [hdtype, hops]
      rfl
    · rw [hops]; decide

/-- C1 witness: a concrete numeric dimension, its operator list, and the
operator written on selecting it. -/
theorem numeric_dimension_operator_safety_witness :
    ∃ op, operatorOnDimensionSelect
        [{ id := "d1", name := "Unit Price", data_type := "decimal" }] "d1" = some op ∧
      op ∈ OPERATORS_BY_TYPE "decimal" :=
  (numeric_dimension_operator_safety "decimal" (Or.inr rfl)).2.2
    [{ id := "d1", name := "Unit Price", data_type := "decimal" }] "d1"
    { id := "d1", name := "Unit Price", data_type := "decimal" } rfl rfl

/-! ## Claim C2 -/

/-- C2 counterexample: the claim fails on the code — the default operator of
a freshly added filter row (and the string operator the builder offers) is a
legal `FilterCondition` operator yet lies outside the spec's vocabulary. -/
theorem operator_vocabulary_counterexample :
    (addFilterRow "filter_1").operator = "=" ∧
    "=" ∈ filterConditionOperators ∧
    "=" ∉ specOperatorVocabulary ∧
    "LIKE" ∈ OPERATORS_BY_TYPE "string" ∧
    "LIKE" ∉ specOperatorVocabulary := by
  refine ⟨rfl, ?_, ?_, ?_, ?_⟩ <;> decide

/-- C2 (amended): every FilterCondition operator the program constructs or
accepts — the operators offered by the FilterBuilder for any data type, the
default operator of a new filter row, and the operator written on dimension
selection — is a member of the code's operator union
`{=,!=,>,<,>=,<=,IN,NOT IN,LIKE,IS NULL,IS NOT NULL}`. -/
theorem operator_vocabulary_closed :
    (∀ dt : String, ∀ op ∈ OPERATORS_BY_TYPE dt, op ∈ filterConditionOperators) ∧
    (∀ fresh_id, (addFilterRow fresh_id).operator ∈ filterConditionOperators) ∧
    (∀ (dimensions : List SemanticDimension) (dimId : String) (op : String),
      operatorOnDimensionSelect dimensions dimId = some op →
      op ∈ filterConditionOperators) := by
  have hbytype : ∀ dt : String, ∀ op ∈ OPERATORS_BY_TYPE dt,
      op ∈ filterConditionOperators := by
    intro dt op hop
    unfold OPERATORS_BY_TYPE at hop
    split_ifs at hop <;>
      first
        | exact absurd hop (List.not_mem_nil op)
        | (fin_cases hop <;> decide)
  refine ⟨hbytype, ?_, ?_⟩
  · intro fresh_id
    show "=" ∈ filterConditionOperators
    decide
  · intro dimensions dimId op hop
    unfold operatorOnDimensionSelect at hop
    cases hfind : dimensions.find? (fun d => d.id == dimId) with
    | none =>
      rw [hfind] at hop
      have hop' : some "=" = some op := hop
      cases hop'
      decide
    | some d =>
      rw [hfind] at hop
      have hop' : (OPERATORS_BY_TYPE d.data_type).get? 0 = some op := hop
      exact hbytype d.data_type op (List.get?_mem hop')

/-- C2 witness for the amended claim: the builder's `LIKE` operator for
string dimensions is in the code's vocabulary. -/
theorem operator_vocabulary_closed_witness :
    "LIKE" ∈ filterConditionOperators :=
  operator_vocabulary_closed.1 "string" "LIKE" (by decide)

/-! ## Claim C3 -/

/-- C3: executing (or saving, or exporting) a semantic query with an empty
measure list is rejected — no `QueryRequest` is issued — and a request is
issued exactly when the entity id is set (truthy) and the measure list is
non-empty. -/
theorem query_requires_measure :
    ∀ st : QueryBuilderState,
      (st.selectedMeasureIds = [] →
        handleExecute st = none ∧ handleExport st = none ∧
        handleSaveQuery st = false) ∧
      (∀ req, handleExecute st = some req →
        ∃ e, st.selectedEntityId = some e ∧ e ≠ "" ∧
          st.selectedMeasureIds ≠ [] ∧ req = buildRequest st e ∧
          req.measure_ids ≠ []) ∧
      ((∃ req, handleExecute st = some req) ↔
        entityTruthy st.selectedEntityId = true ∧ st.selectedMeasureIds ≠ []) := by
  intro st
  obtain ⟨eid, dids, mids, fs⟩ := st
  refine ⟨?_, ?_, ?_⟩
  · rintro rfl
    cases eid with
    | none =>
      simp [handleExecute, handleExport, handleSaveQuery, executeGuardFails,
        entityTruthy]
    | some e =>
      simp [handleExecute, handleExport, handleSaveQuery, executeGuardFails,
        entityTruthy]
  · intro req hreq
    cases eid with
    | none => simp [handleExecute, executeGuardFails, entityTruthy] at hreq
    | some e =>
      by_cases he : e = ""
      · subst he
        simp [handleExecute, executeGuardFails, entityTruthy] at hreq
      · by_cases hm : mids = []
        · subst hm
          simp [handleExecute, executeGuardFails, entityTruthy] at hreq
        · have hlen : mids.length ≠ 0 := fun h => hm (List.length_eq_zero.mp h)
          have hreq' : some (buildRequest ⟨some e, dids, mids, fs⟩ e) = some req := by
            simpa [handleExecute, executeGuardFails, entityTruthy, he, hlen]
              using hreq
          injection hreq' with hreq''
          exact ⟨e, rfl, he, hm, hreq''.symm, by rw [← hreq'']; exact hm⟩
  · constructor
    · rintro ⟨req, hreq⟩
      cases eid with
      | none => simp [handleExecute, executeGuardFails, entityTruthy] at hreq
      | some e =>
        by_cases he : e = ""
        · subst he
          simp [handleExecute, executeGuardFails, entityTruthy] at hreq
        · by_cases hm : mids = []
          · subst hm
            simp [handleExecute, executeGuardFails, entityTruthy] at hreq
          · exact ⟨by simpa [entityTruthy] using he, hm⟩
    · rintro ⟨he, hm⟩
      cases eid with
      | none => simp [entityTruthy] at he
      | some e =>
        have he' : e ≠ "" := by simpa [entityTruthy] using he
        have hlen : mids.length ≠ 0 := fun h => hm (List.length_eq_zero.mp h)
        exact ⟨buildRequest ⟨some e, dids, mids, fs⟩ e,
          by simp [handleExecute, executeGuardFails, entityTruthy, he', hlen]⟩

/-- C3 witness: a state with a selected entity but no measures is rejected on
all three paths. -/
theorem query_requires_measure_witness :
    handleExecute noMeasureState = none ∧ handleExport noMeasureState = none ∧
    handleSaveQuery noMeasureState = false :=
  (query_requires_measure noMeasureState).1 rfl

/-! ## Claim C10 -/

/-- C10: `sortData` returns its input unchanged when the sort order is
`'none'`, and for every sort order it returns a permutation of the input
rows (it sorts a copy, never mutating the caller's data — mutation being
inexpressible in this pure embedding, the permutation property is the
observable content). -/
theorem sortData_perm :
    (∀ (data : List Row) (x : Option String) (ys : List String) (sb : String),
      sortData data x ys "none" sb = data) ∧
    (∀ (data : List Row) (x : Option String) (ys : List String) (so sb : String),
      List.Perm (sortData data x ys so sb) data) := by
  constructor
  · intro data x ys sb
    rfl
  · intro data x ys so sb
    unfold sortData
    split_ifs
    · exact List.Perm.refl data
    · exact List.mergeSort_perm data _

/-! ## Claim C4 -/

/-- C4: `Filter{column:'unit_price', operator:'>', value:1000}` on rows with
`unit_price ∈ {800, 1000, 1500}` returns exactly the row with 1500 — the
boundary is excluded — and in general each comparison operator follows
normal comparison semantics: strict operators exclude equality, non-strict
include it. -/
theorem filter_gt_excludes_boundary :
    filterStep [gt1000Cond] "AND" [row800, row1000, row1500] = [row1500] ∧
    (∀ (col : String) (r : Row) (a b : ℚ), r.get col = JsVal.num a →
      evalCondition r (numCond ">" col b) = decide (b < a) ∧
      evalCondition r (numCond ">=" col b) = decide (b ≤ a) ∧
      evalCondition r (numCond "<" col b) = decide (a < b) ∧
      evalCondition r (numCond "<=" col b) = decide (a ≤ b)) := by
  constructor
  · decide
  · intro col r a b h
    refine ⟨?_, ?_, ?_, ?_⟩ <;>
      simp [evalCondition, numCond, h, decide_eq_decide]

/-- C4 witness: the strict/non-strict behaviour at the boundary value
itself. -/
theorem filter_gt_excludes_boundary_witness :
    evalCondition row1000 (numCond ">" "unit_price" 1000) =
      decide ((1000 : ℚ) < 1000) ∧
    evalCondition row1000 (numCond ">=" "unit_price" 1000) =
      decide ((1000 : ℚ) ≤ 1000) :=
  ⟨(filter_gt_excludes_boundary.2 "unit_price" row1000 1000 1000 rfl).1,
   (filter_gt_excludes_boundary.2 "unit_price" row1000 1000 1000 rfl).2.1⟩

/-! ## Claim C5 -/

/-- C5: the `count` aggregation counts rows whose aggregated column is null,
while every other aggregation function (sum, mean, median, min, max, std,
var) excludes nulls from its computation; in particular the fixture's null
`quantity` row is excluded from `sum('quantity')` (30, not counting the
null) but included in `count('quantity')` (3 rows). -/
theorem aggregate_null_policy :
    (∀ (f : AggFunc) (vs : List (Option ℚ)), f ≠ AggFunc.count →
      applyAgg f (none :: vs) = applyAgg f vs) ∧
    (∀ vs : List (Option ℚ),
      applyAgg AggFunc.count (none :: vs) = applyAgg AggFunc.count vs + 1) ∧
    applyAgg AggFunc.sum (columnValues nullQuantityRows "quantity") = 30 ∧
    applyAgg AggFunc.count (columnValues nullQuantityRows "quantity") = 3 := by
  refine ⟨?_, ?_, ?_, ?_⟩
  · intro f vs hf
    cases f <;> first | exact absurd rfl hf | rfl
  · intro vs
    show ((vs.length + 1 : ℕ) : ℝ) = (vs.length : ℝ) + 1
    push_cast
    ring
  · have hcv : columnValues nullQuantityRows "quantity" = [some 10, none, some 20] :=
      rfl
    rw [show applyAgg AggFunc.sum (columnValues nullQuantityRows "quantity") =
      ((List.sum (nonNullValues (columnValues nullQuantityRows "quantity")) : ℚ) : ℝ)
      from rfl, hcv]
    norm_num [nonNullValues,
      show List.filterMap id [some (10 : ℚ), none, some 20] = [10, 20] from rfl,
      List.map_cons, List.sum_cons, List.sum_nil]
  · have hcv : columnValues nullQuantityRows "quantity" = [some 10, none, some 20] :=
      rfl
    rw [show applyAgg AggFunc.count (columnValues nullQuantityRows "quantity") =
      (((columnValues nullQuantityRows "quantity").length : ℕ) : ℝ) from rfl, hcv]
    norm_num

/-- C5 witness: null-exclusion applied at `sum` on a concrete list. -/
theorem aggregate_null_policy_witness :
    applyAgg AggFunc.sum [none] = applyAgg AggFunc.sum [] :=
  aggregate_null_policy.1 AggFunc.sum [] (by decide)

/-! ## Claim C6 -/

/-- The implementation's step-order check succeeds exactly when the declared
orders are a permutation of `{0..N-1}`. -/
theorem checkStepOrders_eq_nil_iff (p : Pipeline) :
    checkStepOrders p = [] ↔
      List.Perm (p.steps.map (fun s => s.step_order))
        (List.range p.steps.length) := by
  have hlen : (p.steps.map (fun s => s.step_order)).length = p.steps.length :=
    List.length_map _ _
  unfold checkStepOrders
  split_ifs with hc
  · refine iff_of_true rfl ?_
    have hsub : List.range p.steps.length ⊆ p.steps.map (fun s => s.step_order) := by
      intro i hi
      have hci := List.all_eq_true.mp hc i hi
      simpa using hci
    have hnodup := List.nodup_range p.steps.length
    have hsubperm := hnodup.subperm hsub
    have hperm := hsubperm.perm_of_length_le
      (by rw [hlen, List.length_range])
    exact hperm.symm
  · refine iff_of_false (by simp) ?_
    intro hperm
    apply hc
    rw [List.all_eq_true]
    intro i hi
    simpa using hperm.mem_iff.mpr hi

/-- C6: whenever the step orders do not form the exact set `{0..N-1}` (any
gap or duplicate), validation yields the distinct order-mismatch error and
the pipeline is never executed (for every step oracle, `ExecutePipeline`
returns the validation failure and runs nothing). -/
theorem pipeline_step_order_validation (p : Pipeline)
    (h : ¬ List.Perm (p.steps.map (fun s => s.step_order))
      (List.range p.steps.length)) :
    orderMismatchError ∈ validate p ∧
    ∀ exec, executePipeline exec p = ExecOutcome.validationFailed (validate p) := by
  have hc : checkStepOrders p ≠ [] :=
    fun hnil => h ((checkStepOrders_eq_nil_iff p).mp hnil)
  have hc' : checkStepOrders p = [orderMismatchError] := by
    unfold checkStepOrders at hc ⊢
    split_ifs with hcc
    · rw [if_pos hcc] at hc
      exact absurd rfl hc
    · rfl
  have hv : validate p ≠ [] := by
    unfold validate
    rw [hc']
    simp
  constructor
  · unfold validate
    rw [hc']
    exact List.mem_append_left _
      (List.mem_append_left _ (List.mem_singleton.mpr rfl))
  · intro exec
    unfold executePipeline
    rw [if_neg hv]

/-- C6 witness: a pipeline with orders `{0, 2}` is rejected with the
order-mismatch error and never executed. -/
theorem pipeline_step_order_validation_witness :
    orderMismatchError ∈ validate gapOrderPipeline ∧
    executePipeline trivialExec gapOrderPipeline =
      ExecOutcome.validationFailed (validate gapOrderPipeline) :=
  ⟨(pipeline_step_order_validation gapOrderPipeline (by decide)).1,
   (pipeline_step_order_validation gapOrderPipeline (by decide)).2 trivialExec⟩

/-! ## Claim C7 -/

/-- The step loop always completes the run record with a terminal status: no
message on success, and on failure a message naming a failing step of the
executed list. -/
theorem runSteps_terminal (exec : PStep → StepResult) :
    ∀ (steps : List PStep) (n : Nat),
      ((runSteps exec steps n).status = RunStatus.success →
        (runSteps exec steps n).error_message = none) ∧
      ((runSteps exec steps n).status = RunStatus.failed →
        ∃ s m, s ∈ steps ∧
          (runSteps exec steps n).error_message = some (stepFailureMessage s m)) := by
  intro steps
  induction steps with
  | nil =>
    intro n
    refine ⟨fun _ => rfl, fun h => ?_⟩
    exact absurd h (by simp [runSteps])
  | cons s rest ih =>
    intro n
    cases hstep : exec s with
    | ok k =>
      refine ⟨fun h => ?_, fun h => ?_⟩
      · have := (ih k).1
        simpa [runSteps, hstep] using this (by simpa [runSteps, hstep] using h)
      · have hfail := (ih k).2 (by simpa [runSteps, hstep] using h)
        obtain ⟨s', m, hmem, hmsg⟩ := hfail
        exact ⟨s', m, List.mem_cons_of_mem s hmem, by simpa [runSteps, hstep] using hmsg⟩
    | err m =>
      refine ⟨fun h => ?_, fun _ => ?_⟩
      · exact absurd h (by simp [runSteps, hstep])
      · exact ⟨s, m, List.mem_cons_self s rest, by simp [runSteps, hstep]⟩

/-- C7: validation failure is atomic with respect to run records — a pipeline
that fails validation never produces a run record (the orchestrator returns
the validation errors synchronously), while a pipeline that passes
validation always completes its run record with a terminal status and, on
failure, a message naming the failing step; in particular a pipeline whose
second step references a non-existent alias fails validation with an
"alias not found" error and is never run. -/
theorem validation_atomic_run_records :
    (∀ (exec : PStep → StepResult) (p : Pipeline), validate p ≠ [] →
      executePipeline exec p = ExecOutcome.validationFailed (validate p)) ∧
    (∀ (exec : PStep → StepResult) (p : Pipeline), validate p = [] →
      ∃ r : PipelineRun,
        executePipeline exec p = ExecOutcome.completed r ∧
        (r.status = RunStatus.success ∨ r.status = RunStatus.failed) ∧
        (r.status = RunStatus.success → r.error_message = none) ∧
        (r.status = RunStatus.failed → ∃ s m, s ∈ p.steps ∧
          r.error_message = some (stepFailureMessage s m))) ∧
    ("alias not found: missing" ∈ validate aliasNotFoundPipeline ∧
      ∀ exec, executePipeline exec aliasNotFoundPipeline =
        ExecOutcome.validationFailed (validate aliasNotFoundPipeline)) := by
  have hfail : ∀ (exec : PStep → StepResult) (p : Pipeline), validate p ≠ [] →
      executePipeline exec p = ExecOutcome.validationFailed (validate p) := by
    intro exec p hv
    unfold executePipeline
    rw [if_neg hv]
  refine ⟨hfail, ?_, ?_, ?_⟩
  · intro exec p hv
    refine ⟨runSteps exec
      (p.steps.mergeSort (fun a b => decide (a.step_order ≤ b.step_order))) 0,
      ?_, ?_, ?_, ?_⟩
    · unfold executePipeline
      rw [if_pos hv]
    · cases hst : (runSteps exec
        (p.steps.mergeSort (fun a b => decide (a.step_order ≤ b.step_order))) 0).status
      · exact Or.inl rfl
      · exact Or.inr rfl
    · exact (runSteps_terminal exec _ 0).1
    · intro hst
      obtain ⟨s, m, hmem, hmsg⟩ := (runSteps_terminal exec _ 0).2 hst
      refine ⟨s, m, ?_, hmsg⟩
      exact (List.mergeSort_perm p.steps
        (fun a b => decide (a.step_order ≤ b.step_order))).mem_iff.mp hmem
  · decide
  · intro exec
    exact hfail exec aliasNotFoundPipeline (by decide)

/-- C7 witness: validation failure on the alias-missing pipeline creates no
run record under a concrete step oracle. -/
theorem validation_atomic_run_records_witness :
    executePipeline trivialExec aliasNotFoundPipeline =
      ExecOutcome.validationFailed (validate aliasNotFoundPipeline) :=
  validation_atomic_run_records.1 trivialExec aliasNotFoundPipeline (by decide)

/-! ## Claim C8 -/

/-- C8 counterexample: the claim as stated fails on the code — a pie
configuration whose category column is the non-null empty string, with both
columns members of the result columns, is still rejected (the code tests JS
truthiness, not nullness). -/
theorem chart_config_validation_counterexample :
    validateChartConfig cexPieConfig ["", "x"] =
      some "Pie charts require both a category column and a value column" ∧
    cexPieConfig.category_column ≠ none ∧
    cexPieConfig.value_column ≠ none ∧
    cexPieConfig.category_column = some "" ∧ "" ∈ ["", "x"] ∧
    cexPieConfig.value_column = some "x" ∧ "x" ∈ ["", "x"] := by
  refine ⟨rfl, ?_, ?_, rfl, ?_, rfl, ?_⟩ <;> decide

/-- C8 (amended): `validateChartConfig` returns null exactly when the
configuration is well-formed over the result columns, with "non-null"
strengthened to "non-empty" (JS-truthy): for pie charts both the category
and value columns are non-empty members of `columns`; for every other chart
type the x-axis column is a non-empty member, the y-axis list is non-empty
and all its elements are members.  `ChartVisualization` builds an ECharts
option exactly when the validation result is null. -/
theorem chart_config_validation (config : ChartConfiguration)
    (columns : List String) :
    (validateChartConfig config columns = none ↔
      wellFormedChartConfig config columns) ∧
    (∀ (data : QueryResponse) (ct : ChartType),
      (chartOption data config ct).isSome = true ↔
        validateChartConfig config data.columns = none) := by
  constructor
  · unfold validateChartConfig wellFormedChartConfig
    by_cases hct : config.chart_type = ChartType.pie
    · rw [if_pos hct, if_pos hct]
      cases hcat : config.category_column with
      | none => simp [strFalsy, hcat]
      | some c =>
        cases hval : config.value_column with
        | none => simp [strFalsy, hcat, hval]
        | some v =>
          by_cases hc : c = ""
          · simp [strFalsy, hcat, hval, hc]
          · by_cases hv : v = ""
            · simp [strFalsy, hcat, hval, hc, hv]
            · by_cases hcc : c ∈ columns
              · by_cases hvc : v ∈ columns
                · simp [strFalsy, hcat, hval, hc, hv, hcc, hvc]
                · simp [strFalsy, hcat, hval, hc, hv, hcc, hvc]
              · simp [strFalsy, hcat, hval, hc, hv, hcc]
    · rw [if_neg hct, if_neg hct]
      cases hx : config.x_axis_column with
      | none => simp [strFalsy, hx]
      | some x =>
        by_cases hxe : x = ""
        · simp [strFalsy, hx, hxe]
        · by_cases hxc : x ∈ columns
          · cases hys : config.y_axis_columns with
            | nil => simp [strFalsy, hx, hxe, hxc, hys]
            | cons y ys =>
              cases hfind : (y :: ys).find? (fun col => !(columns.contains col)) with
              | some col =>
                have hmem := List.mem_of_find?_eq_some hfind
                have hp := List.find?_some hfind
                have hcol : col ∉ columns := by simpa using hp
                refine iff_of_false ?_ ?_
                · simp [strFalsy, hx, hxe, hxc, hys, hfind]
                · rintro ⟨-, -, hall⟩
                  exact hcol (hall col (hys ▸ hmem))
              | none =>
                have hall : ∀ col ∈ y :: ys, col ∈ columns := by
                  intro col hcol
                  have := List.find?_eq_none.mp hfind col hcol
                  simpa using this
                refine iff_of_true ?_ ?_
                · simp [strFalsy, hx, hxe, hxc, hys, hfind]
                · exact ⟨⟨x, rfl, hxe, hxc⟩, by simp, hall⟩
          · simp [strFalsy, hx, hxe, hxc]
  · intro data ct
    cases hv : validateChartConfig config data.columns with
    | none => simp [chartOption, hv]
    | some msg => simp [chartOption, hv]

/-! ## Claim C9 -/

/-- C9 counterexample: the claim as stated fails on the code — for a response
whose only column is the empty string (non-empty column list, and every
column trivially fails the measure pattern), the inferred `x_axis_column` is
null rather than an element of `response.columns`, because the code's
`finalDimensions[0] || null` maps the empty string to null. -/
theorem inferChartConfig_x_axis_counterexample :
    emptyNameColumnResponse.columns = [""] ∧
    (inferChartConfig emptyNameColumnResponse).x_axis_column = none := by
  exact ⟨rfl, by decide⟩

/-- C9 (amended): for every response with a non-empty column list,
`inferChartConfig` returns chart type `'bar'`, and its x-axis is determined
by the first column not matching the measure-keyword pattern (or the first
column when every column matches): that column is always an element of
`response.columns`, and `x_axis_column` equals it whenever it is a non-empty
string (and is null when that column name is the empty string) — so the
inferred x-axis never names a column absent from the response. -/
theorem inferChartConfig_x_axis (r : QueryResponse) (h : r.columns ≠ []) :
    (inferChartConfig r).chart_type = ChartType.bar ∧
    firstInferredDimension r ∈ r.columns ∧
    (inferChartConfig r).x_axis_column =
      (if firstInferredDimension r = "" then none
       else some (firstInferredDimension r)) := by
  refine ⟨rfl, ?_, ?_⟩
  · unfold firstInferredDimension
    cases hf : r.columns.filter (fun col => !(matchesMeasurePattern col)) with
    | nil =>
      cases hc : r.columns with
      | nil => exact absurd hc h
      | cons c cs => simp [hc]
    | cons c cs =>
      have hmem : c ∈ r.columns.filter (fun col => !(matchesMeasurePattern col)) := by
        rw [hf]
        exact List.mem_cons_self c cs
      exact List.mem_of_mem_filter hmem
  · unfold inferChartConfig firstInferredDimension
    cases hf : r.columns.filter (fun col => !(matchesMeasurePattern col)) with
    | nil =>
      simp only [hf, List.length_nil]
      by_cases hd : r.columns.headD "" = ""
      · simp [jsStrOrNull, hd]
      · simp [jsStrOrNull, hd]
    | cons c cs =>
      simp only [hf, List.length_cons]
      by_cases hc : c = ""
      · simp [jsStrOrNull, hc]
      · simp [jsStrOrNull, hc]

/-- C9 witness: a concrete two-column response — the first column is not a
measure keyword, so it becomes the x-axis. -/
theorem inferChartConfig_x_axis_witness :
    firstInferredDimension
        { columns := ["region", "total_quantity"], data := [], row_count := 0,
          generated_sql := "", entity_name := "" } ∈
      (["region", "total_quantity"] : List String) ∧
    (inferChartConfig
        { columns := ["region", "total_quantity"], data := [], row_count := 0,
          generated_sql := "", entity_name := "" }).x_axis_column =
      (if firstInferredDimension
          { columns := ["region", "total_quantity"], data := [], row_count := 0,
            generated_sql := "", entity_name := "" } = "" then none
       else some (firstInferredDimension
          { columns := ["region", "total_quantity"], data := [], row_count := 0,
            generated_sql := "", entity_name := "" })) :=
  ⟨(inferChartConfig_x_axis
      { columns := ["region", "total_quantity"], data := [], row_count := 0,
        generated_sql := "", entity_name := "" } (by decide)).2.1,
   (inferChartConfig_x_axis
      { columns := ["region", "total_quantity"], data := [], row_count := 0,
        generated_sql := "", entity_name := "" } (by decide)).2.2⟩

end BIApp
